import Mathlib

/-!
Verification of the joulescope-logger capture engine
(`backend/app/joulescope_manager.py`) against its specification.

The Python module is shallowly embedded:
* machine floats are modelled as rationals (`ℚ`); Python `int(x)` truncation
  toward zero is `pyInt`;
* the capture loop `_capture_loop` becomes a state machine `sessStep` driven
  by a script of external events (device scans, connects, reads, stop
  requests); wall-clock instants are rational numbers carried by the events;
* the status dictionary `self._status` is an association list
  `List (String × Val)` so that key *presence* is observable, as in a Python
  dict;
* the CSV file touched by `_initialize_csv` is a `FileSys` value holding the
  parsed rows of the target and of its `.csv.backup` sibling.
-/

/-- Python `int(q)`: truncation toward zero (floor for non-negative values,
ceiling for negative ones). -/
def pyInt (q : ℚ) : ℤ := if 0 ≤ q then ⌊q⌋ else -⌊-q⌋

/-- `expected_samples = int(sampling_rate * actual_duration)`
(line 249 of `joulescope_manager.py`). -/
def expected_samples (rate dur : ℚ) : ℤ := pyInt (rate * dur)

/-- `sample_tolerance = max(100, int(sampling_rate * 0.01))`
(line 250 of `joulescope_manager.py`).  Note: 1% of the *rate*, with no
dependence on the window duration. -/
def sample_tolerance (rate : ℚ) : ℤ := max 100 (pyInt (rate * 0.01))

/-- `gap_detected = abs(actual_samples - expected_samples) > sample_tolerance`
(line 251). -/
def gapBySamples (rate dur : ℚ) (actual : ℕ) : Bool :=
  decide (sample_tolerance rate < |(actual : ℤ) - expected_samples rate dur|)

/-- Tolerance as the specification words it: `max(100, 1% of the expected
sample count)`.  Written from the spec text, for comparison with the
code's `sample_tolerance`. -/
def specSampleTolerance (rate dur : ℚ) : ℤ :=
  max 100 (pyInt ((expected_samples rate dur : ℚ) * 0.01))

/-! ## Per-window statistics and energy (`_calculate_statistics`,
`_calculate_energy`) -/

/-- Sum of a list of rationals divided by its length: `np.mean`. -/
def listMean (l : List ℚ) : ℚ := l.sum / l.length

/-- Minimum of a non-empty list: `np.min` (0 on the empty list, which the
code never passes in). -/
def listMin : List ℚ → ℚ
  | [] => 0
  | x :: xs => xs.foldl min x

/-- Maximum of a non-empty list: `np.max` (0 on the empty list, which the
code never passes in). -/
def listMax : List ℚ → ℚ
  | [] => 0
  | x :: xs => xs.foldl max x

/-- Population variance (denominator `N`): the square of `np.std`.  The code
stores the square root of this; `ℚ` is closed under every other operation of
the pipeline, and no claim depends on the standard-deviation value itself, so
the embedding records the variance. -/
def popVariance (l : List ℚ) : ℚ :=
  listMean (l.map (fun x => (x - listMean l) ^ 2))

/-- Result of `_calculate_statistics`: the dict of lines 96–110.  The
`*_var` fields are the squares of the `*_std` entries (see `popVariance`). -/
structure Stats where
  samples : ℕ
  current_mean : ℚ
  current_var : ℚ
  current_min : ℚ
  current_max : ℚ
  voltage_mean : ℚ
  voltage_var : ℚ
  voltage_min : ℚ
  voltage_max : ℚ
  power_mean : ℚ
  power_var : ℚ
  power_min : ℚ
  power_max : ℚ
deriving DecidableEq

/-- Body of `_calculate_statistics` on a non-empty sample matrix.  A sample
is a `(current, voltage)` pair; `power = current * voltage` elementwise. -/
def statsOf (data : List (ℚ × ℚ)) : Stats :=
  let current := data.map (·.1)
  let voltage := data.map (·.2)
  let power := data.map (fun p => p.1 * p.2)
  { samples := data.length
    current_mean := listMean current
    current_var := popVariance current
    current_min := listMin current
    current_max := listMax current
    voltage_mean := listMean voltage
    voltage_var := popVariance voltage
    voltage_min := listMin voltage
    voltage_max := listMax voltage
    power_mean := listMean power
    power_var := popVariance power
    power_min := listMin power
    power_max := listMax power }

/-- `_calculate_statistics`: `None` on empty input (`data is None or
len(data) == 0`), otherwise the statistics dict. -/
def calculate_statistics (data : List (ℚ × ℚ)) : Option Stats :=
  if data = [] then none else some (statsOf data)

/-- `_calculate_energy` (lines 112–121): rectangular integration of
instantaneous power with `dt = 1 / sampling_rate`; returns
`(energy_joules, energy_mwh)`. -/
def calculate_energy (data : List (ℚ × ℚ)) (sampling_rate : ℚ) : ℚ × ℚ :=
  if data = [] then (0, 0)
  else
    let power := data.map (fun p => p.1 * p.2)
    let dt := 1 / sampling_rate
    let energy_joules := power.sum * dt
    (energy_joules, energy_joules * (1000 / 3600))

/-! ## Status dictionary -/

/-- The window dict built at lines 270–281 and handed to `StatusStore` /
subscribers.  Timestamps are the rational wall-clock instants carried by the
read event (the code stores their ISO rendering). -/
structure WindowData where
  window_num : ℕ
  window_start : ℚ
  window_end : ℚ
  duration : ℚ
  stats : Stats
  energy_joules : ℚ
  energy_mwh : ℚ
  total_energy : ℚ
  total_energy_mwh : ℚ
  samples : ℕ
deriving DecidableEq

/-- A persisted CSV record (`_log_to_csv`, lines 147–172), before
fixed-precision string formatting.  The leading write-time timestamp column
is not modelled (no claim concerns it). -/
structure Row where
  window_start : ℚ
  window_end : ℚ
  duration : ℚ
  samples : ℕ
  stats : Stats
  energy_joules : ℚ
  energy_mwh : ℚ
  total_energy : ℚ
  total_energy_mwh : ℚ
  gap : Bool
deriving DecidableEq

/-- A value stored in the `self._status` dict. -/
inductive Val where
  | vBool (b : Bool)
  | vNum (q : ℚ)
  | vStr (s : String)
  | vNone
  | vWindow (w : WindowData)
  | vPath (p : List String)
deriving DecidableEq

/-- Python-dict write `d[k] = v`: replaces in place, appends a new key at the
end (insertion order preserved, as in CPython). -/
def statusSet : List (String × Val) → String → Val → List (String × Val)
  | [], k, v => [(k, v)]
  | (k1, v1) :: rest, k, v =>
      if k1 = k then (k1, v) :: rest else (k1, v1) :: statusSet rest k v

/-- Python-dict read `d.get(k)`. -/
def statusGet : List (String × Val) → String → Option Val
  | [], _ => none
  | (k1, v1) :: rest, k => if k1 = k then some v1 else statusGet rest k

/-- Python `d.get(k, 0)` specialised to numeric values. -/
def statusGetNum (d : List (String × Val)) (k : String) : ℚ :=
  match statusGet d k with
  | some (.vNum q) => q
  | _ => 0

/-- Key-presence test `k in d`. -/
def statusHasKey (d : List (String × Val)) (k : String) : Bool :=
  (statusGet d k).isSome

/-- Python truthiness of a status value (`if self._status['running']:`).
`none` (missing key) is mapped to `false`; the code only tests keys it always
installs. -/
def truthy : Option Val → Bool
  | some (.vBool b) => b
  | some (.vNum q) => decide (q ≠ 0)
  | some (.vStr s) => decide (s ≠ "")
  | some .vNone => false
  | some (.vWindow _) => true
  | some (.vPath _) => true
  | none => false

/-! ## Output-path handling (`csv_path = self.log_dir / Path(output_file).name`) -/

/-- Split a character list at `/` separators (the semantics of splitting a
POSIX path string on its separator). -/
def splitSlash : List Char → List Char → List String
  | [], acc => [String.mk acc.reverse]
  | c :: rest, acc =>
      if c = '/' then String.mk acc.reverse :: splitSlash rest []
      else splitSlash rest (c :: acc)

/-- Components of a POSIX path as `pathlib` parses them: split on `/`,
dropping empty components and `.` (but keeping `..`). -/
def pathParts (s : String) : List String :=
  (splitSlash s.data []).filter fun c => decide (c ≠ "" ∧ c ≠ ".")

/-- `pathlib.PurePosixPath(s).name`: the last parsed component, `""` when
there is none. -/
def pathName (s : String) : String := (pathParts s).getLast?.getD ""

/-- `self.log_dir / Path(output_file).name` as a component list; joining with
an empty name leaves the directory path unchanged, as in `pathlib`. -/
def csvPathParts (logDir : List String) (output_file : String) : List String :=
  logDir ++ (if pathName output_file = "" then [] else [pathName output_file])

/-- One step of lexical path normalisation: `..` pops the previous component
when one exists. -/
def normStep (acc : List String) (c : String) : List String :=
  if c = ".." then
    if acc = [] ∨ acc.getLast? = some ".." then acc ++ [".."] else acc.dropLast
  else acc ++ [c]

/-- Lexical normalisation of a relative path (what the filesystem resolves
`..` components to, absent symlinks). -/
def normalizePath (p : List String) : List String := p.foldl normStep []

/-! ## CSV file initialisation (`_initialize_csv`) -/

/-- `CSV_HEADERS` (lines 27–34). -/
def CSV_HEADERS : List String :=
  ["Timestamp", "Window Start", "Window End", "Duration (s)", "Samples",
   "Current Mean (A)", "Current Std (A)", "Current Min (A)", "Current Max (A)",
   "Voltage Mean (V)", "Voltage Std (V)", "Voltage Min (V)", "Voltage Max (V)",
   "Power Mean (W)", "Power Std (W)", "Power Min (W)", "Power Max (W)",
   "Energy (J)", "Energy (mWh)", "Cumulative Energy (J)", "Cumulative Energy (mWh)",
   "Data Gap Warning"]

/-- The output target and its `.csv.backup` sibling, as parsed CSV rows.
`content = none` means the target does not exist; `some []` is an existing
zero-byte file (`csv.reader` yields no rows, `st_size == 0`). -/
structure FileSys where
  content : Option (List (List String))
  backup : Option (List (List String))
deriving DecidableEq

/-- `_initialize_csv` (lines 123–141): write a fresh header when the target
is missing; otherwise validate the first row (column count and final column
name) and, on mismatch, back the file up — only when `st_size > 0` — before
truncating and rewriting the header. -/
def initialize_csv (fs : FileSys) : FileSys :=
  match fs.content with
  | none => { fs with content := some [CSV_HEADERS] }
  | some rows =>
      match rows.head? with
      | none =>
          -- `existing is None`: mismatch branch, but `st_size == 0`, no backup
          { fs with content := some [CSV_HEADERS] }
      | some first =>
          if first.length ≠ CSV_HEADERS.length ∨ first.getLast? ≠ some "Data Gap Warning" then
            -- a first row exists, so the file is non-empty and is backed up
            { content := some [CSV_HEADERS], backup := some rows }
          else fs

/-! ## The capture session state machine (`_capture_loop`) -/

/-- Arguments of `start_capture` / `_capture_loop`, plus the manager's
`log_dir` (constructor argument). -/
structure Config where
  window_duration : ℚ
  output_file : String
  sampling_rate : Option ℚ
  max_windows : ℕ
  log_dir : List String
deriving DecidableEq

/-- `sampling_rate = sampling_rate or 1000000.0` (line 184): `None` and the
falsy `0.0` both default to 1 MHz. -/
def defaultRate : Option ℚ → ℚ
  | none => 1000000
  | some r => if r = 0 then 1000000 else r

/-- Where the worker is inside the retry loop: before or after a successful
device acquisition. -/
inductive Phase where
  | disconnected
  | streaming
deriving DecidableEq

/-- State of one `_capture_loop` run: the loop locals (`window_num`,
`total_energy`, `last_read_time`, the defaulted `sampling_rate`), the shared
status dict, and the externally observable outputs (persisted rows, windows
delivered to subscribers, number of `device.read` window attempts, number of
calibration reads). -/
structure SessState where
  running : Bool
  phase : Phase
  status : List (String × Val)
  rate : ℚ
  window_num : ℕ
  total_energy : ℚ
  last_read_time : Option ℚ
  rows : List Row
  notes : List WindowData
  attempts : ℕ
  calib_reads : ℕ
deriving DecidableEq

/-- External events driving one `_capture_loop` run: `scan()` returning no
devices; a successful device acquisition (with the sample count of the 0.1 s
calibration read, when one is taken); one windowed `device.read` returning
`data` over wall-clock `[t0, t1]` whose CSV append succeeds iff `persistOk`;
a read raising; a stop request. -/
inductive SessEv where
  | scanEmpty
  | connect (testLen : ℕ) (now : String)
  | read (t0 t1 : ℚ) (data : List (ℚ × ℚ)) (persistOk : Bool)
  | readFail (msg : String)
  | stopReq
deriving DecidableEq

/-- Gap flag of a window (lines 249–254): sample-count deviation beyond
`sample_tolerance`, or more than `1.1 × window_duration` of wall clock since
the previous successful read. -/
def windowGap (cfg : Config) (s : SessState) (t0 t1 : ℚ) (actual : ℕ) : Bool :=
  gapBySamples s.rate (t1 - t0) actual ||
    (match s.last_read_time with
     | some lr => decide (cfg.window_duration * 1.1 < t0 - lr)
     | none => false)

/-- The window dict built at lines 270–281 for the attempt numbered
`s.window_num + 1`. -/
def mkWindowData (s : SessState) (t0 t1 : ℚ) (data : List (ℚ × ℚ)) (stats : Stats) :
    WindowData :=
  let e := calculate_energy data s.rate
  { window_num := s.window_num + 1
    window_start := t0
    window_end := t1
    duration := t1 - t0
    stats := stats
    energy_joules := e.1
    energy_mwh := e.2
    total_energy := s.total_energy + e.1
    total_energy_mwh := (s.total_energy + e.1) * (1000 / 3600)
    samples := data.length }

/-- The CSV record written by `_log_to_csv` for the same attempt. -/
def mkRow (cfg : Config) (s : SessState) (t0 t1 : ℚ) (data : List (ℚ × ℚ)) (stats : Stats) :
    Row :=
  let e := calculate_energy data s.rate
  { window_start := t0
    window_end := t1
    duration := t1 - t0
    samples := data.length
    stats := stats
    energy_joules := e.1
    energy_mwh := e.2
    total_energy := s.total_energy + e.1
    total_energy_mwh := (s.total_energy + e.1) * (1000 / 3600)
    gap := windowGap cfg s t0 t1 data.length }

/-- Lines 246–286 for a non-empty read: accumulate energy *before* the
append attempt, append the row only if the write did not raise (the
exception is swallowed), then update the status dict and notify
subscribers. -/
def processedState (cfg : Config) (s : SessState) (t0 t1 : ℚ)
    (data : List (ℚ × ℚ)) (stats : Stats) (persistOk : Bool) : SessState :=
  let e := calculate_energy data s.rate
  let total2 := s.total_energy + e.1
  let wd := mkWindowData s t0 t1 data stats
  { s with
    window_num := s.window_num + 1
    attempts := s.attempts + 1
    last_read_time := some t1
    total_energy := total2
    rows := if persistOk then s.rows ++ [mkRow cfg s t0 t1 data stats] else s.rows
    notes := s.notes ++ [wd]
    status :=
      statusSet (statusSet (statusSet s.status
        "window_count" (.vNum (s.window_num + 1)))
        "total_energy" (.vNum total2))
        "last_window" (.vWindow wd) }

/-- Loop epilogue (lines 304–306), run when the outer `while self._running`
loop exits (stop request or window cap reached). -/
def finishState (cfg : Config) (s : SessState) : SessState :=
  { s with
    running := false
    phase := .disconnected
    status := statusSet (statusSet s.status "running" (.vBool false))
      "output_file" (.vPath (csvPathParts cfg.log_dir cfg.output_file)) }

/-- One event of `_capture_loop`.  Events arriving after the loop has exited
(`running = false`), or in a phase where the code cannot produce them, leave
the state unchanged. -/
def sessStep (cfg : Config) (s : SessState) (e : SessEv) : SessState :=
  if ¬ s.running then s
  else
    match e with
    | .stopReq => finishState cfg s
    | .scanEmpty =>
        if s.phase = .disconnected then
          let st1 := statusSet s.status "last_error" (.vStr "Nenhum dispositivo encontrado")
          { s with status :=
              statusSet st1 "reconnect_count" (.vNum (statusGetNum st1 "reconnect_count" + 1)) }
        else s
    | .connect testLen now =>
        if s.phase = .disconnected then
          -- lines 209–218: the calibration read runs iff the (defaulted)
          -- rate equals 1 MHz; a non-empty test read replaces the rate
          let doCalib := s.rate = 1000000
          let rate2 := if doCalib ∧ 0 < testLen then (testLen : ℚ) / 0.1 else s.rate
          { s with
            phase := .streaming
            rate := rate2
            calib_reads := if doCalib then s.calib_reads + 1 else s.calib_reads
            status :=
              statusSet (statusSet (statusSet s.status
                "start_time" (.vStr now))
                "sampling_rate" (.vNum rate2))
                "last_error" .vNone }
        else s
    | .readFail msg =>
        if s.phase = .streaming then
          if 0 < cfg.max_windows ∧ cfg.max_windows ≤ s.window_num then finishState cfg s
          else
            -- lines 235–240 and 294–302: the attempt had already consumed a
            -- window number; the inner handler and the outer handler both
            -- record `str(e)` as last_error, then the reconnect counter
            -- increments and the worker returns to scanning
            let st1 := statusSet s.status "last_error" (.vStr msg)
            { s with
              phase := .disconnected
              window_num := s.window_num + 1
              attempts := s.attempts + 1
              status :=
                statusSet st1 "reconnect_count" (.vNum (statusGetNum st1 "reconnect_count" + 1)) }
        else s
    | .read t0 t1 data persistOk =>
        if s.phase = .streaming then
          if 0 < cfg.max_windows ∧ cfg.max_windows ≤ s.window_num then finishState cfg s
          else
            match data with
            | [] =>
                -- lines 242–244: empty read discarded; the incremented
                -- window number is kept
                { s with window_num := s.window_num + 1, attempts := s.attempts + 1 }
            | d :: ds =>
                match calculate_statistics (d :: ds) with
                | none =>
                    -- line 258 `continue` (unreachable for non-empty data);
                    -- last_read_time was already updated at line 255
                    { s with
                      window_num := s.window_num + 1
                      attempts := s.attempts + 1
                      last_read_time := some t1 }
                | some stats => processedState cfg s t0 t1 (d :: ds) stats persistOk
        else s

/-- A whole `_capture_loop` run over a script of events. -/
def sessRun (cfg : Config) (s : SessState) (evs : List SessEv) : SessState :=
  evs.foldl (sessStep cfg) s

/-- The status dict installed by `start_capture` (lines 315–322): exactly six
keys. -/
def startStatus (cfg : Config) : List (String × Val) :=
  [("running", .vBool true), ("output_file", .vStr cfg.output_file),
   ("start_time", .vNone), ("window_count", .vNum 0),
   ("total_energy", .vNum 0), ("last_window", .vNone)]

/-- State at the top of `_capture_loop` (lines 177–184), just after
`start_capture` spawned the worker. -/
def startSession (cfg : Config) : SessState :=
  { running := true
    phase := .disconnected
    status := startStatus cfg
    rate := defaultRate cfg.sampling_rate
    window_num := 0
    total_energy := 0
    last_read_time := none
    rows := []
    notes := []
    attempts := 0
    calib_reads := 0 }

/-! ## The manager's control surface (`start_capture`, `stop_capture`,
`get_status`) -/

/-- `JoulescopeManager` control-surface state: the `_running` flag, whether a
capture thread object is held, and the status dict (`get_status` returns a
copy of the latter). -/
structure Manager where
  running_flag : Bool
  has_thread : Bool
  status : List (String × Val)
deriving DecidableEq

/-- The status dict installed by `__init__` (lines 43–52): eight keys. -/
def initStatus : List (String × Val) :=
  [("running", .vBool false), ("output_file", .vNone), ("start_time", .vNone),
   ("window_count", .vNum 0), ("total_energy", .vNum 0), ("last_window", .vNone),
   ("reconnect_count", .vNum 0), ("last_error", .vNone)]

/-- A freshly constructed manager. -/
def initManager : Manager :=
  { running_flag := false, has_thread := false, status := initStatus }

/-- `start_capture` (lines 308–329): reject when already running, otherwise
replace the entire status dict and spawn the worker.  Returns the new state
and whether the call succeeded. -/
def start_capture (cfg : Config) (m : Manager) : Manager × Bool :=
  if truthy (statusGet m.status "running") then (m, false)
  else ({ running_flag := true, has_thread := true, status := startStatus cfg }, true)

/-- `stop_capture` (lines 331–339): clear the running flag, drop the thread,
force `status['running'] = False`; always returns `{'success': True}`. -/
def stop_capture (m : Manager) : Manager × Bool :=
  ({ running_flag := false, has_thread := false,
     status := statusSet m.status "running" (.vBool false) }, true)

/-! ## Helper lemmas -/

theorem statusGet_set_same (d : List (String × Val)) (k : String) (v : Val) :
    statusGet (statusSet d k v) k = some v := by
  induction d with
  | nil => simp [statusSet, statusGet]
  | cons p rest ih =>
      obtain ⟨k1, v1⟩ := p
      by_cases hk : k1 = k
      · simp [statusSet, statusGet, hk]
      · simp [statusSet, statusGet, hk, ih]

theorem statusGet_set_ne (d : List (String × Val)) (k k2 : String) (v : Val)
    (h : k ≠ k2) : statusGet (statusSet d k v) k2 = statusGet d k2 := by
  induction d with
  | nil => simp [statusSet, statusGet, h]
  | cons p rest ih =>
      obtain ⟨k1, v1⟩ := p
      by_cases hk : k1 = k
      · subst hk; simp [statusSet, statusGet, h]
      · simp [statusSet, statusGet, hk, ih]

theorem statusSet_eq_of_get (d : List (String × Val)) (k : String) (v : Val)
    (h : statusGet d k = some v) : statusSet d k v = d := by
  induction d with
  | nil => simp [statusGet] at h
  | cons p rest ih =>
      obtain ⟨k1, v1⟩ := p
      by_cases hk : k1 = k
      · subst hk
        have h2 : v1 = v := by simpa [statusGet] using h
        subst h2
        simp [statusSet]
      · simp only [statusGet, if_neg hk] at h
        simp [statusSet, hk, ih h]

theorem sessStep_not_running (cfg : Config) (s : SessState) (e : SessEv)
    (hr : s.running = false) : sessStep cfg s e = s := by
  unfold sessStep
  simp [hr]

theorem sessStep_stopReq (cfg : Config) (s : SessState)
    (hr : s.running = true) : sessStep cfg s .stopReq = finishState cfg s := by
  unfold sessStep
  simp [hr]

theorem sessStep_read_cap (cfg : Config) (s : SessState) (t0 t1 : ℚ)
    (data : List (ℚ × ℚ)) (p : Bool)
    (hr : s.running = true) (hp : s.phase = .streaming)
    (hcap : 0 < cfg.max_windows ∧ cfg.max_windows ≤ s.window_num) :
    sessStep cfg s (.read t0 t1 data p) = finishState cfg s := by
  unfold sessStep
  simp [hr, hp, hcap]

theorem sessStep_read_empty (cfg : Config) (s : SessState) (t0 t1 : ℚ) (p : Bool)
    (hr : s.running = true) (hp : s.phase = .streaming)
    (hcap : ¬ (0 < cfg.max_windows ∧ cfg.max_windows ≤ s.window_num)) :
    sessStep cfg s (.read t0 t1 [] p) =
      { s with window_num := s.window_num + 1, attempts := s.attempts + 1 } := by
  unfold sessStep
  simp [hr, hp, hcap]

theorem sessStep_read_processed (cfg : Config) (s : SessState) (t0 t1 : ℚ)
    (d : ℚ × ℚ) (ds : List (ℚ × ℚ)) (p : Bool)
    (hr : s.running = true) (hp : s.phase = .streaming)
    (hcap : ¬ (0 < cfg.max_windows ∧ cfg.max_windows ≤ s.window_num)) :
    sessStep cfg s (.read t0 t1 (d :: ds) p) =
      processedState cfg s t0 t1 (d :: ds) (statsOf (d :: ds)) p := by
  unfold sessStep
  simp [hr, hp, hcap, calculate_statistics]

theorem sessStep_connect (cfg : Config) (s : SessState) (testLen : ℕ) (now : String)
    (hr : s.running = true) (hp : s.phase = .disconnected) :
    sessStep cfg s (.connect testLen now) =
      (let rate2 := if s.rate = 1000000 ∧ 0 < testLen then (testLen : ℚ) / 0.1 else s.rate
       { s with
         phase := .streaming
         rate := rate2
         calib_reads := if s.rate = 1000000 then s.calib_reads + 1 else s.calib_reads
         status :=
           statusSet (statusSet (statusSet s.status
             "start_time" (.vStr now))
             "sampling_rate" (.vNum rate2))
             "last_error" .vNone }) := by
  unfold sessStep
  simp [hr, hp]

theorem sessStep_scanEmpty (cfg : Config) (s : SessState)
    (hr : s.running = true) (hp : s.phase = .disconnected) :
    sessStep cfg s .scanEmpty =
      (let st1 := statusSet s.status "last_error" (.vStr "Nenhum dispositivo encontrado")
       { s with status :=
          statusSet st1 "reconnect_count" (.vNum (statusGetNum st1 "reconnect_count" + 1)) }) := by
  unfold sessStep
  simp [hr, hp]

theorem sessStep_scanEmpty_streaming (cfg : Config) (s : SessState)
    (hr : s.running = true) (hp : s.phase = .streaming) :
    sessStep cfg s .scanEmpty = s := by
  unfold sessStep
  simp [hr, hp]

theorem sessStep_connect_streaming (cfg : Config) (s : SessState) (testLen : ℕ) (now : String)
    (hr : s.running = true) (hp : s.phase = .streaming) :
    sessStep cfg s (.connect testLen now) = s := by
  unfold sessStep
  simp [hr, hp]

theorem sessStep_read_disconnected (cfg : Config) (s : SessState) (t0 t1 : ℚ)
    (data : List (ℚ × ℚ)) (p : Bool)
    (hr : s.running = true) (hp : s.phase = .disconnected) :
    sessStep cfg s (.read t0 t1 data p) = s := by
  unfold sessStep
  simp [hr, hp]

theorem sessStep_readFail_cap (cfg : Config) (s : SessState) (msg : String)
    (hr : s.running = true) (hp : s.phase = .streaming)
    (hcap : 0 < cfg.max_windows ∧ cfg.max_windows ≤ s.window_num) :
    sessStep cfg s (.readFail msg) = finishState cfg s := by
  unfold sessStep
  simp [hr, hp, hcap]

theorem sessStep_readFail (cfg : Config) (s : SessState) (msg : String)
    (hr : s.running = true) (hp : s.phase = .streaming)
    (hcap : ¬ (0 < cfg.max_windows ∧ cfg.max_windows ≤ s.window_num)) :
    sessStep cfg s (.readFail msg) =
      (let st1 := statusSet s.status "last_error" (.vStr msg)
       { s with
         phase := .disconnected
         window_num := s.window_num + 1
         attempts := s.attempts + 1
         status :=
          statusSet st1 "reconnect_count" (.vNum (statusGetNum st1 "reconnect_count" + 1)) }) := by
  unfold sessStep
  simp [hr, hp, hcap]

theorem sessStep_readFail_disconnected (cfg : Config) (s : SessState) (msg : String)
    (hr : s.running = true) (hp : s.phase = .disconnected) :
    sessStep cfg s (.readFail msg) = s := by
  unfold sessStep
  simp [hr, hp]

/-! ## Demonstration configurations (used by witnesses and counterexamples) -/

/-- Default capture configuration: no caller-supplied sampling rate, no
window cap. -/
def cfg0 : Config :=
  { window_duration := 10, output_file := "joulescope_log.csv",
    sampling_rate := none, max_windows := 0, log_dir := ["logs"] }

/-- Configuration whose caller-supplied sampling rate is exactly 1 MHz. -/
def cfgB : Config :=
  { window_duration := 10, output_file := "joulescope_log.csv",
    sampling_rate := some 1000000, max_windows := 0, log_dir := ["logs"] }

/-- Configuration with a caller-supplied 2 MHz sampling rate. -/
def cfgC : Config :=
  { window_duration := 10, output_file := "joulescope_log.csv",
    sampling_rate := some 2000000, max_windows := 0, log_dir := ["logs"] }

/-- A worker state in the middle of streaming, before its first window. -/
def sDemo : SessState :=
  { running := true
    phase := .streaming
    status := startStatus cfg0
    rate := 1000000
    window_num := 0
    total_energy := 0
    last_read_time := none
    rows := []
    notes := []
    attempts := 0
    calib_reads := 0 }

/-! ## C1: gap-detection tolerance -/

/-- C1, counterexample: the code's tolerance is `max(100, 1% of the sampling
*rate*)`, not `max(100, 1% of the expected sample count)` as the claim
states.  At nominal rate 1 MHz and a 10 s window the code's tolerance is
10,000 (the claim says 100,000), and the window with 9,950,001 actual
samples — within the claim's tolerance — *is* flagged by the code. -/
theorem C1_tolerance_counterexample :
    sample_tolerance 1000000 = 10000 ∧
    specSampleTolerance 1000000 10 = 100000 ∧
    sample_tolerance 1000000 ≠ specSampleTolerance 1000000 10 ∧
    gapBySamples 1000000 10 9950001 = true := by
  refine ⟨?_, ?_, ?_, ?_⟩ <;>
    norm_num [sample_tolerance, specSampleTolerance, expected_samples, pyInt, gapBySamples]

/-- C1, amended: the sample-count gap flag is set exactly when the actual
sample count lies strictly below `expected − tolerance` or strictly above
`expected + tolerance`, where the tolerance is `max(100, ⌊1% of the nominal
sampling rate⌋)` — independent of the window duration — and
`expected = int(rate × actual duration)`. -/
theorem C1_gap_tolerance (rate dur : ℚ) (n : ℕ) :
    gapBySamples rate dur n = true ↔
      ((n : ℤ) < expected_samples rate dur - sample_tolerance rate ∨
       expected_samples rate dur + sample_tolerance rate < (n : ℤ)) := by
  unfold gapBySamples
  rw [decide_eq_true_eq, lt_abs]
  omega

/-! ## C3: sampling-rate calibration -/

/-- C3, counterexample: with a caller-configured rate of exactly
1,000,000 Hz the calibration read *is* performed, and a test read of 50,000
samples in 0.1 s replaces the configured rate by 500,000 Hz for the session. -/
theorem C3_calibration_counterexample :
    cfgB.sampling_rate = some 1000000 ∧
    (sessRun cfgB (startSession cfgB) [.connect 50000 "t"]).calib_reads = 1 ∧
    (sessRun cfgB (startSession cfgB) [.connect 50000 "t"]).rate = 500000 ∧
    ((500000 : ℚ) ≠ 1000000) := by
  refine ⟨rfl, ?_, ?_, by norm_num⟩ <;>
    norm_num [sessRun, sessStep, startSession, defaultRate, cfgB]

/-- C3, amended: the calibration read is performed on connect iff the
session's (defaulted) sampling rate equals 1,000,000 Hz — that is, iff the
caller configured no rate, a falsy rate of 0, or exactly 1,000,000 Hz.  Any
other caller-supplied rate is used unchanged: it survives the `or` default
and the connect step leaves it, and the calibration-read counter,
untouched. -/
theorem C3_calibration (cfg : Config) (r : ℚ) (s : SessState) (testLen : ℕ) (now : String)
    (hc : cfg.sampling_rate = some r) (h0 : r ≠ 0) (h1 : r ≠ 1000000)
    (hs : s.rate = r) :
    (startSession cfg).rate = r ∧
    (sessStep cfg s (.connect testLen now)).rate = r ∧
    (sessStep cfg s (.connect testLen now)).calib_reads = s.calib_reads := by
  refine ⟨?_, ?_, ?_⟩
  · simp [startSession, defaultRate, hc, h0]
  · cases hrun : s.running with
    | false => rw [sessStep_not_running cfg s _ hrun]; exact hs
    | true =>
        cases hph : s.phase with
        | streaming => unfold sessStep; simp [hrun, hph]; exact hs
        | disconnected =>
            rw [sessStep_connect cfg s testLen now hrun hph]
            simp [hs, h1]
  · cases hrun : s.running with
    | false => rw [sessStep_not_running cfg s _ hrun]
    | true =>
        cases hph : s.phase with
        | streaming => unfold sessStep; simp [hrun, hph]
        | disconnected =>
            rw [sessStep_connect cfg s testLen now hrun hph]
            simp [hs, h1]

/-- C3, witness: a 2 MHz caller-supplied rate is kept unchanged and triggers
no calibration read. -/
theorem C3_calibration_witness :
    (startSession cfgC).rate = 2000000 ∧
    (sessStep cfgC (startSession cfgC) (.connect 7 "t")).rate = 2000000 ∧
    (sessStep cfgC (startSession cfgC) (.connect 7 "t")).calib_reads =
      (startSession cfgC).calib_reads :=
  C3_calibration cfgC 2000000 (startSession cfgC) 7 "t" rfl (by norm_num) (by norm_num)
    (by simp [startSession, defaultRate, cfgC])

/-! ## C5: schema-mismatch backup -/

/-- C5: starting a session against an existing, non-empty target whose first
row mismatches the schema (wrong column count or wrong final column name)
copies the whole original content to the backup and rewrites the target as
the fresh header; and whenever a non-empty target's content is changed at
all, the backup holds the original rows — the original bytes are never
discarded without a backup. -/
theorem C5_schema_mismatch_backup :
    (∀ fs first rest, fs.content = some (first :: rest) →
      (first.length ≠ CSV_HEADERS.length ∨ first.getLast? ≠ some "Data Gap Warning") →
      (initialize_csv fs).backup = some (first :: rest) ∧
      (initialize_csv fs).content = some [CSV_HEADERS]) ∧
    (∀ fs rows, fs.content = some rows → rows ≠ [] →
      (initialize_csv fs).content ≠ fs.content →
      (initialize_csv fs).backup = some rows) := by
  constructor
  · intro fs first rest hc hmis
    unfold initialize_csv
    rw [hc]
    simp only [List.head?_cons]
    rw [if_pos hmis]
    exact ⟨rfl, rfl⟩
  · intro fs rows hc hne hchanged
    obtain ⟨first, rest, rfl⟩ := List.exists_cons_of_ne_nil hne
    by_cases hmis : first.length ≠ CSV_HEADERS.length ∨ first.getLast? ≠ some "Data Gap Warning"
    · unfold initialize_csv
      rw [hc]
      simp only [List.head?_cons]
      rw [if_pos hmis]
    · exfalso
      apply hchanged
      unfold initialize_csv
      rw [hc]
      simp only [List.head?_cons]
      rw [if_neg hmis, hc]

/-- C5, witness: a one-row file with a two-column header is backed up in
full and replaced by the fresh 22-column header. -/
theorem C5_schema_mismatch_backup_witness :
    (initialize_csv ⟨some [["a", "b"]], none⟩).backup = some [["a", "b"]] ∧
    (initialize_csv ⟨some [["a", "b"]], none⟩).content = some [CSV_HEADERS] :=
  C5_schema_mismatch_backup.1 ⟨some [["a", "b"]], none⟩ ["a", "b"] [] rfl
    (Or.inl (by decide))

/-! ## C7: idempotent stop -/

/-- C7: calling `stop_capture` on a manager whose status says it is not
running returns success and leaves the status dict — the snapshot `status()`
copies — unchanged in every field. -/
theorem C7_stop_idempotent (m : Manager)
    (h : statusGet m.status "running" = some (.vBool false)) :
    (stop_capture m).2 = true ∧ (stop_capture m).1.status = m.status := by
  refine ⟨rfl, ?_⟩
  simp only [stop_capture]
  exact statusSet_eq_of_get m.status "running" _ h

/-- C7, witness: stopping a freshly constructed (never started) manager. -/
theorem C7_stop_idempotent_witness :
    (stop_capture initManager).2 = true ∧
    (stop_capture initManager).1.status = initManager.status :=
  C7_stop_idempotent initManager (by decide)

/-! ## C8: status replacement on start -/

/-- C8, counterexample: after a successful `start_capture` the status has
neither `reconnect_count` nor `last_error` — but the `last_error` key
reappears (with value `None`) as soon as the worker connects successfully,
*before* any error of the new session, because lines 220–223 write
`self._status['last_error'] = None` on every successful connect.  The trace
below contains no error event at all, yet the key is present. -/
theorem C8_status_keys_counterexample :
    statusHasKey (start_capture cfg0 initManager).1.status "last_error" = false ∧
    statusHasKey (start_capture cfg0 initManager).1.status "reconnect_count" = false ∧
    statusHasKey (sessRun cfg0 (startSession cfg0) [.connect 0 "t"]).status "last_error" = true := by
  refine ⟨?_, ?_, ?_⟩ <;> decide

/-- C8, amended: a successful `start_capture` replaces the entire status
dict with one holding exactly the keys `running`, `output_file`,
`start_time`, `window_count`, `total_energy`, `last_window`, discarding the
previous session's `reconnect_count` and `last_error`; those two keys are
absent until the worker either records an error or successfully connects —
a successful connect already re-adds `last_error` (set to `None`). -/
theorem C8_status_reset (cfg : Config) (m : Manager) (s : SessState)
    (testLen : ℕ) (now : String)
    (h : truthy (statusGet m.status "running") = false)
    (hr : s.running = true) (hp : s.phase = .disconnected) :
    (start_capture cfg m).2 = true ∧
    (start_capture cfg m).1.status = startStatus cfg ∧
    (startStatus cfg).map Prod.fst =
      ["running", "output_file", "start_time", "window_count", "total_energy",
       "last_window"] ∧
    statusHasKey (startStatus cfg) "reconnect_count" = false ∧
    statusHasKey (startStatus cfg) "last_error" = false ∧
    statusGet (sessStep cfg s (.connect testLen now)).status "last_error" = some .vNone := by
  refine ⟨?_, ?_, by simp [startStatus], by simp [statusHasKey, statusGet, startStatus],
    by simp [statusHasKey, statusGet, startStatus], ?_⟩
  · simp [start_capture, h]
  · simp [start_capture, h]
  · rw [sessStep_connect cfg s testLen now hr hp]
    simp only
    exact statusGet_set_same _ "last_error" _

/-- C8, witness: starting on a fresh manager and connecting once. -/
theorem C8_status_reset_witness :
    (start_capture cfg0 initManager).2 = true ∧
    (start_capture cfg0 initManager).1.status = startStatus cfg0 ∧
    (startStatus cfg0).map Prod.fst =
      ["running", "output_file", "start_time", "window_count", "total_energy",
       "last_window"] ∧
    statusHasKey (startStatus cfg0) "reconnect_count" = false ∧
    statusHasKey (startStatus cfg0) "last_error" = false ∧
    statusGet (sessStep cfg0 (startSession cfg0) (.connect 0 "t")).status "last_error" =
      some .vNone :=
  C8_status_reset cfg0 initManager (startSession cfg0) 0 "t" (by decide) rfl rfl

/-! ## C10: output-path containment -/

theorem normalizePath_append_single (p : List String) (c : String) :
    normalizePath (p ++ [c]) = normStep (normalizePath p) c := by
  simp [normalizePath, List.foldl_append]

theorem isPrefixOf_append_self (l t : List String) : l.isPrefixOf (l ++ t) = true := by
  induction l with
  | nil => simp [List.isPrefixOf]
  | cons x xs ih => simp [List.isPrefixOf, ih]

/-- C10, counterexample: an output target whose final `pathlib` component is
`..` (for example `a/..`) resolves to `log_dir/..`, which normalises to the
*parent* of the log directory — the computed log path is not inside the log
directory. -/
theorem C10_output_path_counterexample :
    pathName "a/.." = ".." ∧
    csvPathParts ["logs"] "a/.." = ["logs", ".."] ∧
    normalizePath (csvPathParts ["logs"] "a/..") = [] ∧
    (["logs"].isPrefixOf (normalizePath (csvPathParts ["logs"] "a/..")) = false) := by
  refine ⟨?_, ?_, ?_, ?_⟩ <;> decide

/-- C10, amended: only the final `pathlib` component of `output_file` is
used, so any two targets sharing that component resolve to the same file;
whenever that component is neither empty nor `..`, the log path is the log
directory extended by exactly that component and lies inside the log
directory.  (A final component of `..`, as in the counterexample, instead
names the log directory's parent — though that path is an existing
directory, so no log file can actually be created there.) -/
theorem C10_output_path (logDir : List String) (out1 out2 : String)
    (h1 : pathName out1 ≠ "") (h2 : pathName out1 ≠ "..")
    (hdir : normalizePath logDir = logDir) :
    csvPathParts logDir out1 = logDir ++ [pathName out1] ∧
    normalizePath (csvPathParts logDir out1) = logDir ++ [pathName out1] ∧
    logDir.isPrefixOf (normalizePath (csvPathParts logDir out1)) = true ∧
    (pathName out1 = pathName out2 → csvPathParts logDir out1 = csvPathParts logDir out2) := by
  have hparts : csvPathParts logDir out1 = logDir ++ [pathName out1] := by
    simp [csvPathParts, h1]
  have hnorm : normalizePath (csvPathParts logDir out1) = logDir ++ [pathName out1] := by
    rw [hparts, normalizePath_append_single, hdir, normStep, if_neg h2]
  refine ⟨hparts, hnorm, ?_, ?_⟩
  · rw [hnorm]; exact isPrefixOf_append_self logDir [pathName out1]
  · intro hsame
    simp [csvPathParts, hsame]

/-- C10, witness: `../x.csv` and `a/x.csv` both resolve to `logs/x.csv`,
inside the log directory. -/
theorem C10_output_path_witness :
    csvPathParts ["logs"] "../x.csv" = ["logs"] ++ [pathName "../x.csv"] ∧
    normalizePath (csvPathParts ["logs"] "../x.csv") = ["logs"] ++ [pathName "../x.csv"] ∧
    (["logs"].isPrefixOf (normalizePath (csvPathParts ["logs"] "../x.csv")) = true) ∧
    (pathName "../x.csv" = pathName "a/x.csv" →
      csvPathParts ["logs"] "../x.csv" = csvPathParts ["logs"] "a/x.csv") :=
  C10_output_path ["logs"] "../x.csv" "a/x.csv" (by decide) (by decide) (by decide)

/-! ## C4: persistence failure is non-fatal -/

/-- C4: when the CSV append of a non-empty window raises, the exception is
swallowed: the resulting state differs from the successful-append state only
in the absence of the new row; the loop keeps running and streaming; and the
window's data is still pushed to the status store (as `last_window` with the
incremented `window_count`) and delivered to subscribers. -/
theorem C4_persist_failure_nonfatal (cfg : Config) (s : SessState) (t0 t1 : ℚ)
    (d : ℚ × ℚ) (ds : List (ℚ × ℚ))
    (hr : s.running = true) (hp : s.phase = .streaming)
    (hcap : ¬ (0 < cfg.max_windows ∧ cfg.max_windows ≤ s.window_num)) :
    sessStep cfg s (.read t0 t1 (d :: ds) false) =
      { sessStep cfg s (.read t0 t1 (d :: ds) true) with rows := s.rows } ∧
    (sessStep cfg s (.read t0 t1 (d :: ds) false)).rows = s.rows ∧
    (sessStep cfg s (.read t0 t1 (d :: ds) false)).running = true ∧
    (sessStep cfg s (.read t0 t1 (d :: ds) false)).phase = .streaming ∧
    (sessStep cfg s (.read t0 t1 (d :: ds) false)).notes =
      s.notes ++ [mkWindowData s t0 t1 (d :: ds) (statsOf (d :: ds))] ∧
    statusGet (sessStep cfg s (.read t0 t1 (d :: ds) false)).status "last_window" =
      some (.vWindow (mkWindowData s t0 t1 (d :: ds) (statsOf (d :: ds)))) ∧
    statusGet (sessStep cfg s (.read t0 t1 (d :: ds) false)).status "window_count" =
      some (.vNum (s.window_num + 1)) := by
  rw [sessStep_read_processed cfg s t0 t1 d ds false hr hp hcap,
    sessStep_read_processed cfg s t0 t1 d ds true hr hp hcap]
  refine ⟨by simp [processedState], by simp [processedState], by simp [processedState, hr],
    by simp [processedState, hp], by simp [processedState], ?_, ?_⟩
  · simp only [processedState]
    exact statusGet_set_same _ "last_window" _
  · simp only [processedState]
    rw [statusGet_set_ne _ "last_window" "window_count" _ (by decide),
      statusGet_set_ne _ "total_energy" "window_count" _ (by decide)]
    exact statusGet_set_same _ "window_count" _

/-- C4, witness: a failed append of a one-sample window in the demo state. -/
theorem C4_persist_failure_nonfatal_witness :
    sessStep cfg0 sDemo (.read 0 10 [(1, 1)] false) =
      { sessStep cfg0 sDemo (.read 0 10 [(1, 1)] true) with rows := sDemo.rows } ∧
    (sessStep cfg0 sDemo (.read 0 10 [(1, 1)] false)).rows = sDemo.rows ∧
    (sessStep cfg0 sDemo (.read 0 10 [(1, 1)] false)).running = true ∧
    (sessStep cfg0 sDemo (.read 0 10 [(1, 1)] false)).phase = .streaming ∧
    (sessStep cfg0 sDemo (.read 0 10 [(1, 1)] false)).notes =
      sDemo.notes ++ [mkWindowData sDemo 0 10 [(1, 1)] (statsOf [(1, 1)])] ∧
    statusGet (sessStep cfg0 sDemo (.read 0 10 [(1, 1)] false)).status "last_window" =
      some (.vWindow (mkWindowData sDemo 0 10 [(1, 1)] (statsOf [(1, 1)]))) ∧
    statusGet (sessStep cfg0 sDemo (.read 0 10 [(1, 1)] false)).status "window_count" =
      some (.vNum (sDemo.window_num + 1)) :=
  C4_persist_failure_nonfatal cfg0 sDemo 0 10 (1, 1) [] rfl rfl (by decide)

/-! ## C6: empty reads are discarded but consume a sequence number -/

/-- C6: an empty read changes nothing but the window counter and the attempt
counter — no statistics enter the state, no row is persisted, the status
dict and the subscriber deliveries are untouched — yet the sequence number
it consumed is not reused: the next processed window is numbered two past
the pre-attempt counter, strictly above the number the empty attempt
consumed, leaving a gap. -/
theorem C6_empty_read_discarded (cfg : Config) (s : SessState)
    (t0 t1 t2 t3 : ℚ) (p q : Bool) (d : ℚ × ℚ) (ds : List (ℚ × ℚ))
    (hr : s.running = true) (hp : s.phase = .streaming)
    (hcap : ¬ (0 < cfg.max_windows ∧ cfg.max_windows ≤ s.window_num))
    (hcap2 : ¬ (0 < cfg.max_windows ∧ cfg.max_windows ≤ s.window_num + 1)) :
    sessStep cfg s (.read t0 t1 [] p) =
      { s with window_num := s.window_num + 1, attempts := s.attempts + 1 } ∧
    (sessStep cfg (sessStep cfg s (.read t0 t1 [] p)) (.read t2 t3 (d :: ds) q)).notes =
      s.notes ++
        [mkWindowData { s with window_num := s.window_num + 1, attempts := s.attempts + 1 }
          t2 t3 (d :: ds) (statsOf (d :: ds))] ∧
    (mkWindowData { s with window_num := s.window_num + 1, attempts := s.attempts + 1 }
        t2 t3 (d :: ds) (statsOf (d :: ds))).window_num = s.window_num + 2 ∧
    s.window_num + 1 < s.window_num + 2 := by
  have h1 : sessStep cfg s (.read t0 t1 [] p) =
      { s with window_num := s.window_num + 1, attempts := s.attempts + 1 } :=
    sessStep_read_empty cfg s t0 t1 p hr hp hcap
  refine ⟨h1, ?_, by simp [mkWindowData], by omega⟩
  rw [h1, sessStep_read_processed cfg
    { s with window_num := s.window_num + 1, attempts := s.attempts + 1 }
    t2 t3 d ds q hr hp hcap2]
  simp [processedState]

/-- C6, witness: an empty read in the demo state followed by a one-sample
window. -/
theorem C6_empty_read_discarded_witness :
    sessStep cfg0 sDemo (.read 0 10 [] true) =
      { sDemo with window_num := sDemo.window_num + 1, attempts := sDemo.attempts + 1 } ∧
    (sessStep cfg0 (sessStep cfg0 sDemo (.read 0 10 [] true)) (.read 10 20 [(1, 1)] true)).notes =
      sDemo.notes ++
        [mkWindowData
          { sDemo with window_num := sDemo.window_num + 1, attempts := sDemo.attempts + 1 }
          10 20 [(1, 1)] (statsOf [(1, 1)])] ∧
    (mkWindowData
        { sDemo with window_num := sDemo.window_num + 1, attempts := sDemo.attempts + 1 }
        10 20 [(1, 1)] (statsOf [(1, 1)])).window_num = sDemo.window_num + 2 ∧
    sDemo.window_num + 1 < sDemo.window_num + 2 :=
  C6_empty_read_discarded cfg0 sDemo 0 10 10 20 true true (1, 1) [] rfl rfl
    (by decide) (by decide)

/-! ## C2: cumulative energy -/

/-- Invariant tying the loop-local `total_energy` to the windows actually
processed (and delivered to subscribers) and to the status dict. -/
def energyInv (s : SessState) : Prop :=
  s.total_energy = (s.notes.map (fun w => w.energy_joules)).sum ∧
  statusGet s.status "total_energy" = some (.vNum s.total_energy)

theorem energyInv_finish (cfg : Config) (s : SessState) (h : energyInv s) :
    energyInv (finishState cfg s) := by
  obtain ⟨h1, h2⟩ := h
  refine ⟨h1, ?_⟩
  unfold finishState
  simp only
  rw [statusGet_set_ne _ "output_file" "total_energy" _ (by decide),
    statusGet_set_ne _ "running" "total_energy" _ (by decide)]
  exact h2

theorem energyInv_step (cfg : Config) (s : SessState) (e : SessEv)
    (h : energyInv s) : energyInv (sessStep cfg s e) := by
  by_cases hrun : s.running = true
  · cases e with
    | stopReq =>
        rw [sessStep_stopReq cfg s hrun]
        exact energyInv_finish cfg s h
    | scanEmpty =>
        obtain ⟨h1, h2⟩ := h
        cases hph : s.phase with
        | streaming =>
            rw [sessStep_scanEmpty_streaming cfg s hrun hph]
            exact ⟨h1, h2⟩
        | disconnected =>
            rw [sessStep_scanEmpty cfg s hrun hph]
            refine ⟨h1, ?_⟩
            simp only
            rw [statusGet_set_ne _ "reconnect_count" "total_energy" _ (by decide),
              statusGet_set_ne _ "last_error" "total_energy" _ (by decide)]
            exact h2
    | connect testLen now =>
        obtain ⟨h1, h2⟩ := h
        cases hph : s.phase with
        | streaming =>
            rw [sessStep_connect_streaming cfg s testLen now hrun hph]
            exact ⟨h1, h2⟩
        | disconnected =>
            rw [sessStep_connect cfg s testLen now hrun hph]
            refine ⟨h1, ?_⟩
            simp only
            rw [statusGet_set_ne _ "last_error" "total_energy" _ (by decide),
              statusGet_set_ne _ "sampling_rate" "total_energy" _ (by decide),
              statusGet_set_ne _ "start_time" "total_energy" _ (by decide)]
            exact h2
    | readFail msg =>
        obtain ⟨h1, h2⟩ := h
        cases hph : s.phase with
        | disconnected =>
            rw [sessStep_readFail_disconnected cfg s msg hrun hph]
            exact ⟨h1, h2⟩
        | streaming =>
            by_cases hcap : 0 < cfg.max_windows ∧ cfg.max_windows ≤ s.window_num
            · rw [sessStep_readFail_cap cfg s msg hrun hph hcap]
              exact energyInv_finish cfg s ⟨h1, h2⟩
            · rw [sessStep_readFail cfg s msg hrun hph hcap]
              refine ⟨h1, ?_⟩
              simp only
              rw [statusGet_set_ne _ "reconnect_count" "total_energy" _ (by decide),
                statusGet_set_ne _ "last_error" "total_energy" _ (by decide)]
              exact h2
    | read t0 t1 data p =>
        obtain ⟨h1, h2⟩ := h
        cases hph : s.phase with
        | disconnected =>
            rw [sessStep_read_disconnected cfg s t0 t1 data p hrun hph]
            exact ⟨h1, h2⟩
        | streaming =>
            by_cases hcap : 0 < cfg.max_windows ∧ cfg.max_windows ≤ s.window_num
            · rw [sessStep_read_cap cfg s t0 t1 data p hrun hph hcap]
              exact energyInv_finish cfg s ⟨h1, h2⟩
            · cases data with
              | nil =>
                  rw [sessStep_read_empty cfg s t0 t1 p hrun hph hcap]
                  exact ⟨h1, h2⟩
              | cons d ds =>
                  rw [sessStep_read_processed cfg s t0 t1 d ds p hrun hph hcap]
                  constructor
                  · simp only [processedState, List.map_append, List.sum_append,
                      List.map_cons, List.map_nil, List.sum_cons, List.sum_nil]
                    rw [h1]
                    simp [mkWindowData]
                  · simp only [processedState]
                    rw [statusGet_set_ne _ "last_window" "total_energy" _ (by decide)]
                    exact statusGet_set_same _ "total_energy" _
  · rw [sessStep_not_running cfg s e (by simpa using hrun)]
    exact h

theorem energyInv_run (cfg : Config) (s : SessState) (evs : List SessEv)
    (h : energyInv s) : energyInv (sessRun cfg s evs) := by
  induction evs generalizing s with
  | nil => exact h
  | cons e rest ih => exact ih (sessStep cfg s e) (energyInv_step cfg s e h)

/-- C2, counterexample: a session whose single window's CSV append fails
persists no row at all, yet its cumulative energy — both the loop total and
the value carried in status — equals that window's energy (1 µJ here), not
the claimed sum over successfully persisted windows (which is 0). -/
theorem C2_cumulative_energy_counterexample :
    (sessRun cfg0 (startSession cfg0) [.connect 0 "t", .read 0 10 [(1, 1)] false]).rows = [] ∧
    (sessRun cfg0 (startSession cfg0) [.connect 0 "t", .read 0 10 [(1, 1)] false]).total_energy =
      1 / 1000000 ∧
    statusGet (sessRun cfg0 (startSession cfg0)
      [.connect 0 "t", .read 0 10 [(1, 1)] false]).status "total_energy" =
      some (.vNum (1 / 1000000)) ∧
    ((1 : ℚ) / 1000000 ≠ 0) := by
  refine ⟨?_, ?_, ?_, by norm_num⟩
  · norm_num [sessRun, sessStep, startSession, startStatus, defaultRate, cfg0,
      calculate_statistics, processedState, mkWindowData, calculate_energy,
      statusSet, statusGet]
  · norm_num [sessRun, sessStep, startSession, startStatus, defaultRate, cfg0,
      calculate_statistics, processedState, mkWindowData, calculate_energy,
      statusSet, statusGet]
  · norm_num [sessRun, sessStep, startSession, startStatus, defaultRate, cfg0,
      calculate_statistics, processedState, mkWindowData, calculate_energy,
      statusSet, statusGet]
    simp

/-- C2, amended: the cumulative energy (loop total, status value, and the
value stamped into every notification and row) is the sum of the per-window
energies of all *processed* windows of the session — including windows whose
CSV append failed — and is reset to zero exactly when a new session starts. -/
theorem C2_cumulative_energy (cfg : Config) (evs : List SessEv) :
    (startSession cfg).total_energy = 0 ∧
    (sessRun cfg (startSession cfg) evs).total_energy =
      ((sessRun cfg (startSession cfg) evs).notes.map (fun w => w.energy_joules)).sum ∧
    statusGet (sessRun cfg (startSession cfg) evs).status "total_energy" =
      some (.vNum (sessRun cfg (startSession cfg) evs).total_energy) := by
  have h0 : energyInv (startSession cfg) := by
    constructor
    · simp [startSession]
    · simp [startSession, startStatus, statusGet]
  have h := energyInv_run cfg (startSession cfg) evs h0
  exact ⟨by simp [startSession], h.1, h.2⟩

/-! ## C9: the window cap bounds read attempts -/

/-- Invariant for the window cap: the number of `device.read` window
attempts never exceeds the window counter, and the counter never exceeds a
positive cap. -/
def capInv (cfg : Config) (s : SessState) : Prop :=
  s.attempts ≤ s.window_num ∧ (0 < cfg.max_windows → s.window_num ≤ cfg.max_windows)

theorem capInv_step (cfg : Config) (s : SessState) (e : SessEv)
    (h : capInv cfg s) : capInv cfg (sessStep cfg s e) := by
  obtain ⟨h1, h2⟩ := h
  have hstep : ∀ hcap : ¬ (0 < cfg.max_windows ∧ cfg.max_windows ≤ s.window_num),
      s.attempts + 1 ≤ s.window_num + 1 ∧
      (0 < cfg.max_windows → s.window_num + 1 ≤ cfg.max_windows) := by
    intro hcap
    refine ⟨Nat.succ_le_succ h1, fun hm => ?_⟩
    by_contra hge
    exact hcap ⟨hm, by omega⟩
  by_cases hrun : s.running = true
  · cases e with
    | stopReq =>
        rw [sessStep_stopReq cfg s hrun]
        exact ⟨h1, h2⟩
    | scanEmpty =>
        cases hph : s.phase with
        | streaming => rw [sessStep_scanEmpty_streaming cfg s hrun hph]; exact ⟨h1, h2⟩
        | disconnected => rw [sessStep_scanEmpty cfg s hrun hph]; exact ⟨h1, h2⟩
    | connect testLen now =>
        cases hph : s.phase with
        | streaming =>
            rw [sessStep_connect_streaming cfg s testLen now hrun hph]
            exact ⟨h1, h2⟩
        | disconnected =>
            rw [sessStep_connect cfg s testLen now hrun hph]
            exact ⟨h1, h2⟩
    | readFail msg =>
        cases hph : s.phase with
        | disconnected =>
            rw [sessStep_readFail_disconnected cfg s msg hrun hph]
            exact ⟨h1, h2⟩
        | streaming =>
            by_cases hcap : 0 < cfg.max_windows ∧ cfg.max_windows ≤ s.window_num
            · rw [sessStep_readFail_cap cfg s msg hrun hph hcap]
              exact ⟨h1, h2⟩
            · rw [sessStep_readFail cfg s msg hrun hph hcap]
              exact hstep hcap
    | read t0 t1 data p =>
        cases hph : s.phase with
        | disconnected =>
            rw [sessStep_read_disconnected cfg s t0 t1 data p hrun hph]
            exact ⟨h1, h2⟩
        | streaming =>
            by_cases hcap : 0 < cfg.max_windows ∧ cfg.max_windows ≤ s.window_num
            · rw [sessStep_read_cap cfg s t0 t1 data p hrun hph hcap]
              exact ⟨h1, h2⟩
            · cases data with
              | nil =>
                  rw [sessStep_read_empty cfg s t0 t1 p hrun hph hcap]
                  exact hstep hcap
              | cons d ds =>
                  rw [sessStep_read_processed cfg s t0 t1 d ds p hrun hph hcap]
                  exact hstep hcap
  · rw [sessStep_not_running cfg s e (by simpa using hrun)]
    exact ⟨h1, h2⟩

theorem capInv_run (cfg : Config) (s : SessState) (evs : List SessEv)
    (h : capInv cfg s) : capInv cfg (sessRun cfg s evs) := by
  induction evs generalizing s with
  | nil => exact h
  | cons e rest ih => exact ih (sessStep cfg s e) (capInv_step cfg s e h)

/-- Configuration with a cap of two windows. -/
def cfgCap : Config :=
  { window_duration := 10, output_file := "joulescope_log.csv",
    sampling_rate := none, max_windows := 2, log_dir := ["logs"] }

/-- A capped session in which the first read attempt comes back empty: the
cap is consumed by two attempts but only one row is persisted. -/
def demoTrace : List SessEv :=
  [.connect 0 "t", .read 0 10 [] true, .read 10 20 [(1, 1)] true, .read 20 30 [(1, 1)] true]

/-- A streaming worker state that has already consumed the two-window cap. -/
def sCap : SessState := { sDemo with window_num := 2 }

/-- C9: with a positive `max_windows`, a session performs at most
`max_windows` read attempts — empty reads included, since the counter the
cap is checked against is incremented for every attempt; once the counter
has reached the cap, the next loop iteration performs no further read and
terminates the session cleanly (the running flag and status are cleared,
nothing else changes); consequently the number of persisted rows can be
strictly below the cap, as in the two-window demo session whose first read
is empty. -/
theorem C9_max_windows_cap (cfg : Config) (evs : List SessEv) (s : SessState)
    (t0 t1 : ℚ) (data : List (ℚ × ℚ)) (p : Bool)
    (hmw : 0 < cfg.max_windows)
    (hr : s.running = true) (hp : s.phase = .streaming)
    (hcap : cfg.max_windows ≤ s.window_num) :
    (sessRun cfg (startSession cfg) evs).attempts ≤ cfg.max_windows ∧
    sessStep cfg s (.read t0 t1 data p) = finishState cfg s ∧
    (sessStep cfg s (.read t0 t1 data p)).running = false ∧
    statusGet (sessStep cfg s (.read t0 t1 data p)).status "running" =
      some (.vBool false) ∧
    (sessStep cfg s (.read t0 t1 data p)).attempts = s.attempts ∧
    (sessStep cfg s (.read t0 t1 data p)).rows = s.rows ∧
    (sessRun cfgCap (startSession cfgCap) demoTrace).attempts = 2 ∧
    (sessRun cfgCap (startSession cfgCap) demoTrace).rows.length = 1 ∧
    (sessRun cfgCap (startSession cfgCap) demoTrace).rows.length < cfgCap.max_windows := by
  have hfin := sessStep_read_cap cfg s t0 t1 data p hr hp ⟨hmw, hcap⟩
  have hbound : (sessRun cfg (startSession cfg) evs).attempts ≤ cfg.max_windows := by
    have h := capInv_run cfg (startSession cfg) evs (by exact ⟨by simp [startSession], by simp [startSession]⟩)
    exact Nat.le_trans h.1 (h.2 hmw)
  have hdemo : (sessRun cfgCap (startSession cfgCap) demoTrace).attempts = 2 ∧
      (sessRun cfgCap (startSession cfgCap) demoTrace).rows.length = 1 := by
    constructor <;>
    · norm_num [sessRun, sessStep, startSession, startStatus, defaultRate, cfgCap, demoTrace,
        calculate_statistics, processedState, mkWindowData, mkRow, calculate_energy,
        finishState, statusSet, statusGet]
  refine ⟨hbound, hfin, ?_, ?_, ?_, ?_, hdemo.1, hdemo.2, ?_⟩
  · rw [hfin]; simp [finishState]
  · rw [hfin]
    simp only [finishState]
    rw [statusGet_set_ne _ "output_file" "running" _ (by decide)]
    exact statusGet_set_same _ "running" _
  · rw [hfin]; simp [finishState]
  · rw [hfin]; simp [finishState]
  · rw [hdemo.2]; norm_num [cfgCap]

/-- C9, witness: the capped demo configuration with a saturated counter. -/
theorem C9_max_windows_cap_witness :
    (sessRun cfgCap (startSession cfgCap) demoTrace).attempts ≤ cfgCap.max_windows ∧
    sessStep cfgCap sCap (.read 20 30 [(1, 1)] true) = finishState cfgCap sCap ∧
    (sessStep cfgCap sCap (.read 20 30 [(1, 1)] true)).running = false ∧
    statusGet (sessStep cfgCap sCap (.read 20 30 [(1, 1)] true)).status "running" =
      some (.vBool false) ∧
    (sessStep cfgCap sCap (.read 20 30 [(1, 1)] true)).attempts = sCap.attempts ∧
    (sessStep cfgCap sCap (.read 20 30 [(1, 1)] true)).rows = sCap.rows ∧
    (sessRun cfgCap (startSession cfgCap) demoTrace).attempts = 2 ∧
    (sessRun cfgCap (startSession cfgCap) demoTrace).rows.length = 1 ∧
    (sessRun cfgCap (startSession cfgCap) demoTrace).rows.length < cfgCap.max_windows :=
  C9_max_windows_cap cfgCap demoTrace sCap 20 30 [(1, 1)] true (by decide) rfl rfl
    (by decide)
